import Mathlib

set_option maxHeartbeats 1000000

/-!
Shallow embedding of the browser-side countdown controllers and the
password checklist of this repository.

Embedded sources:
* `static/js/system/token_timer.js`: a module-level `countdown` variable is
  parsed from a DOM data attribute with `parseInt(raw, 10)` (default 180 on
  NaN); `updateTimer` either renders the remaining time or performs the
  expiry actions; `initTokenTimer` looks the elements up, sets the initial
  button states, runs `updateTimer` once and starts a one-second interval.
* `token_status_checker.js` (provided without its file name): holds a state
  record with fields `canVerify`, `canResend`, `isExpired`, `timeLeft`;
  `updateUI` writes the disabled attributes, `startCountdown` either renders
  the zero state or starts the interval whose callback decrements and, on
  reaching zero, flips the state flags.
* `verify_account.js` (provided without its file name): a third countdown
  variant whose `updateTimer` writes the looked-up `timer` element with no
  null guard, so a missing element throws a TypeError — its operations
  therefore return `Option`, `none` being the thrown error.
* `static/js/users_register/password_checklist.js`: the `input` listener
  recomputes five boolean rules over the password value, toggles a `valid`
  class per checklist item and hides the container exactly when all hold.

Modelling conventions: a DOM element is an `Option` record (`none` means
`getElementById` returned `null`); the `setInterval` handle is the boolean
`intervalActive`, and a firing of the interval callback is a no-op once the
interval has been cleared, matching the browser semantics that a cleared
interval no longer fires; JS numbers that hold integer counters are `Int`
(`parseInt` can produce negative values).
-/

/-- token_timer.js: the timer display element, reduced to the text content
the script writes. -/
structure DisplayEl where
  text : String

/-- token_timer.js: the resend button; the script touches its `disabled`
attribute, the two CSS classes `btn-resend-disabled` / `btn-resend-active`
and its text content. -/
structure ResendEl where
  disabled : Bool
  clsDisabled : Bool
  clsActive : Bool
  label : String

/-- token_timer.js: the verify button; the script touches its `disabled`
attribute and the CSS class `btn-verify-disabled`. -/
structure VerifyEl where
  disabled : Bool
  clsDisabled : Bool

/-- token_timer.js module state: the three looked-up DOM elements, the
number of warning divs appended next to the display, the `countdown`
variable and whether the interval is currently scheduled. -/
structure TimerState where
  display : Option DisplayEl
  resend : Option ResendEl
  verify : Option VerifyEl
  warnings : Nat
  countdown : Int
  intervalActive : Bool

/-- The DOM as found at page load by token_timer.js. -/
structure TimerDom where
  display : Option DisplayEl
  resend : Option ResendEl
  verify : Option VerifyEl

/-- token_timer.js: message written to the display at expiry. -/
def expiredMsg : String := "⛔ Token invalid or expired — please request a new code."

/-- token_timer.js: text written onto the resend button at expiry. -/
def resendLabel : String := "Re-send Code"

/-- JS `s.padStart(2, "0")`. -/
def padStart2 (s : String) : String := if s.length < 2 then "0" ++ s else s

/-- token_timer.js rendering: `Token expires in m:ss seconds` with
`m = Math.floor(countdown / 60)` and `ss = (countdown % 60)` zero-padded.
The script renders only while `countdown > 0`, where Lean `Int` `/` and `%`
agree with `Math.floor` and the JS remainder. -/
def fmtTime (c : Int) : String :=
  "Token expires in " ++ toString (c / 60) ++ ":" ++ padStart2 (toString (c % 60)) ++ " seconds"

/-- token_timer.js `updateTimer`: return early when the display is missing;
when `countdown <= 0` clear the interval, write the expired message, append
a warning div, enable the resend button and disable the verify button;
otherwise render the remaining time and decrement `countdown`. -/
def updateTimer (s : TimerState) : TimerState :=
  match s.display with
  | none => s
  | some _ =>
    if s.countdown ≤ 0 then
      { s with
        intervalActive := false
        display := some { text := expiredMsg }
        warnings := s.warnings + 1
        resend := s.resend.map fun _ =>
          { disabled := false, clsDisabled := false, clsActive := true, label := resendLabel }
        verify := s.verify.map fun _ => { disabled := true, clsDisabled := true } }
    else
      { s with
        display := some { text := fmtTime s.countdown }
        countdown := s.countdown - 1 }

/-- token_timer.js `initTokenTimer`: look the elements up, return early when
the display is missing, disable the resend button, enable the verify button,
run `updateTimer` once, then start the interval (the `setInterval` call runs
unconditionally after `updateTimer` returns, even when that first call
already took the expiry branch). -/
def initTokenTimer (dom : TimerDom) (c : Int) : TimerState :=
  let s0 : TimerState :=
    { display := dom.display, resend := dom.resend, verify := dom.verify,
      warnings := 0, countdown := c, intervalActive := false }
  match dom.display with
  | none => s0
  | some _ =>
    let s1 : TimerState :=
      { s0 with
        resend := s0.resend.map fun r => { r with disabled := true, clsDisabled := true }
        verify := s0.verify.map fun v => { v with disabled := false, clsDisabled := false } }
    { updateTimer s1 with intervalActive := true }

/-- One firing of the token_timer.js interval callback: runs `updateTimer`
while the interval is scheduled, does nothing once it has been cleared. -/
def timerTick (s : TimerState) : TimerState :=
  if s.intervalActive then updateTimer s else s

/-- State of token_timer.js after `initTokenTimer` and `k` interval
firings. -/
def runTimer (dom : TimerDom) (c : Int) : Nat → TimerState
  | 0 => initTokenTimer dom c
  | k + 1 => timerTick (runTimer dom c k)

/-- Numeric value of a decimal digit string. -/
def digitsVal (ds : List Char) : Nat :=
  ds.foldl (fun a c => 10 * a + (c.toNat - 48)) 0

/-- JS whitespace skipped by `parseInt` (the common cases). -/
def isWs (c : Char) : Bool := c = ' ' || c = '\t' || c = '\n' || c = '\r'

/-- Decimal digit test, the JS regex `\d`. -/
def isDigitCh (c : Char) : Bool := decide ('0' ≤ c) && decide (c ≤ '9')

/-- JS `parseInt(s, 10)`: skip leading whitespace, read an optional sign,
then the longest prefix of decimal digits, ignoring the rest of the string;
`none` models `NaN` (no digits found). -/
def parseIntJs (s : String) : Option Int :=
  let cs := s.data.dropWhile isWs
  let signed : Bool × List Char :=
    match cs with
    | '-' :: rest => (true, rest)
    | '+' :: rest => (false, rest)
    | _ => (false, cs)
  let ds := signed.2.takeWhile isDigitCh
  if ds.isEmpty then none
  else if signed.1 then some (-(digitsVal ds : Int)) else some (digitsVal ds : Int)

/-- token_timer.js lines 9-15: parse the `data-seconds` attribute and fall
back to 180 exactly when the parse result is NaN. -/
def countdownInit (raw : String) : Int :=
  match parseIntJs raw with
  | none => 180
  | some v => v

/-- token_status_checker.js: the `config` argument. -/
structure StatusConfig where
  canVerify : Bool
  canResend : Bool
  isExpired : Bool
  initialCountdown : Int

/-- token_status_checker.js DOM: the textarea and the two buttons are
reduced to their `disabled` attribute, the timer element to its text. -/
structure StatusDom where
  codeTextarea : Option Bool
  verifyButton : Option Bool
  resendButton : Option Bool
  timerEl : Option String

/-- token_status_checker.js: the `state` record plus the looked-up DOM
elements and the interval handle. -/
structure StatusState where
  canVerify : Bool
  canResend : Bool
  isExpired : Bool
  timeLeft : Int
  codeTextarea : Option Bool
  verifyButton : Option Bool
  resendButton : Option Bool
  timerEl : Option String
  intervalActive : Bool

/-- token_status_checker.js `updateUI`: write `!canVerify` into the
textarea and verify button, `!canResend` into the resend button, each
guarded on element presence. -/
def updateUI (s : StatusState) : StatusState :=
  { s with
    codeTextarea := s.codeTextarea.map fun _ => !s.canVerify
    verifyButton := s.verifyButton.map fun _ => !s.canVerify
    resendButton := s.resendButton.map fun _ => !s.canResend }

/-- token_status_checker.js `startCountdown`: the leading `clearInterval`
acts on a handle that does not exist yet at initialization; when
`timeLeft <= 0` render `0` and re-apply the configured flags, otherwise
schedule the interval. -/
def startCountdown (s : StatusState) : StatusState :=
  if s.timeLeft ≤ 0 then
    updateUI { s with timerEl := s.timerEl.map fun _ => "0" }
  else
    { s with intervalActive := true }

/-- token_status_checker.js `initTokenStatusChecker`: build the state from
`config`, run `updateUI`, then `startCountdown`. -/
def initTokenStatusChecker (cfg : StatusConfig) (dom : StatusDom) : StatusState :=
  let s0 : StatusState :=
    { canVerify := cfg.canVerify, canResend := cfg.canResend,
      isExpired := cfg.isExpired, timeLeft := cfg.initialCountdown,
      codeTextarea := dom.codeTextarea, verifyButton := dom.verifyButton,
      resendButton := dom.resendButton, timerEl := dom.timerEl,
      intervalActive := false }
  startCountdown (updateUI s0)

/-- One firing of the token_status_checker.js interval callback: decrement
`timeLeft`, render the decremented value, and when it reached `<= 0` clear
the interval, set `isExpired`, drop `canVerify`, grant `canResend` and run
`updateUI`; a no-op once the interval has been cleared. -/
def statusTick (s : StatusState) : StatusState :=
  if s.intervalActive then
    let t := s.timeLeft - 1
    let s1 : StatusState := { s with timeLeft := t, timerEl := s.timerEl.map fun _ => toString t }
    if t ≤ 0 then
      updateUI { s1 with
        intervalActive := false, isExpired := true,
        canVerify := false, canResend := true }
    else s1
  else s

/-- State of token_status_checker.js after initialization and `k` interval
firings. -/
def runStatus (cfg : StatusConfig) (dom : StatusDom) : Nat → StatusState
  | 0 => initTokenStatusChecker cfg dom
  | k + 1 => statusTick (runStatus cfg dom k)

/-- The verify control of token_timer.js is enabled (present and not
disabled). -/
def timerCanVerify (s : TimerState) : Bool :=
  match s.verify with
  | none => false
  | some b => !b.disabled

/-- The resend control of token_timer.js is enabled (present and not
disabled). -/
def timerCanResend (s : TimerState) : Bool :=
  match s.resend with
  | none => false
  | some b => !b.disabled

/-- The JS regex class `[A-Z]` on one character. -/
def isUpperCh (c : Char) : Bool := decide ('A' ≤ c) && decide (c ≤ 'Z')

/-- The JS regex class `[a-z]` on one character. -/
def isLowerCh (c : Char) : Bool := decide ('a' ≤ c) && decide (c ≤ 'z')

/-- password_checklist.js observable state after one input event: the
`valid` class on each checklist item and the container display style. -/
structure ChecklistState where
  lengthValid : Bool
  uppercaseValid : Bool
  lowercaseValid : Bool
  numberValid : Bool
  symbolValid : Bool
  containerDisplay : String

/-- password_checklist.js input listener: recompute the five rules
(`length >= 8`, `/[A-Z]/`, `/[a-z]/`, `/\d/`, `/[^A-Za-z0-9]/`), toggle the
`valid` class on each item, and hide the container exactly when all five
hold. -/
def onPasswordInput (val : String) : ChecklistState :=
  let rLength := decide (8 ≤ val.length)
  let rUpper := val.data.any isUpperCh
  let rLower := val.data.any isLowerCh
  let rNumber := val.data.any isDigitCh
  let rSymbol := val.data.any fun c => !(isUpperCh c || isLowerCh c || isDigitCh c)
  let allValid := rLength && rUpper && rLower && rNumber && rSymbol
  { lengthValid := rLength, uppercaseValid := rUpper, lowercaseValid := rLower,
    numberValid := rNumber, symbolValid := rSymbol,
    containerDisplay := if allValid then "none" else "block" }

/-- A concrete timer display element, for concrete evaluations. -/
def sampleDisplay : DisplayEl := { text := "" }

/-- A concrete resend button in its page-initial state. -/
def sampleResend : ResendEl :=
  { disabled := false, clsDisabled := false, clsActive := false, label := "Re-send" }

/-- A concrete verify button in its page-initial state. -/
def sampleVerify : VerifyEl := { disabled := false, clsDisabled := false }

/-- A token_timer.js DOM with all three elements present. -/
def timerDomAll : TimerDom :=
  { display := some sampleDisplay, resend := some sampleResend, verify := some sampleVerify }

/-- A token_status_checker.js DOM with all four elements present. -/
def statusDomAll : StatusDom :=
  { codeTextarea := some false, verifyButton := some false,
    resendButton := some false, timerEl := some "" }

/-- A concrete mid-countdown state of token_status_checker.js. -/
def sampleStatusState : StatusState :=
  ⟨true, false, false, 5, some false, some false, some false, some "", true⟩

/-- A concrete mid-countdown state of token_timer.js. -/
def sampleTimerState : TimerState :=
  ⟨some sampleDisplay, some sampleResend, some sampleVerify, 0, 5, true⟩

/-- verify_account.js (provided without its file name): module state of the
third countdown variant — the `timer` element reduced to its text (`none`
when `getElementById` returns null; the element is looked up afresh on every
call), the resend button reduced to its disabled attribute, the `countdown`
variable (source initial value 60) and whether a one-shot timeout is
currently armed. -/
structure VerifyAccountState where
  timer : Option String
  resendDisabled : Option Bool
  countdown : Int
  timeoutArmed : Bool

/-- verify_account.js rendering: `m:ss` with
`m = Math.floor(countdown / 60)`, `ss = countdown % 60` zero-padded by the
conditional template. -/
def vaFmt (c : Int) : String :=
  toString (c / 60) ++ ":" ++ (if c % 60 < 10 then "0" else "") ++ toString (c % 60)

/-- verify_account.js `updateTimer`: the write to `timerDisplay.innerText`
has no null guard, so with the timer element missing the call throws a
TypeError (modelled as `none`); otherwise it renders `m:ss` and either
decrements and re-arms the one-shot timeout (`countdown > 0`) or overwrites
the display with the final message and enables the resend button when that
one is present. -/
def vaUpdateTimer (s : VerifyAccountState) : Option VerifyAccountState :=
  match s.timer with
  | none => none
  | some _ =>
    let s1 : VerifyAccountState := { s with timer := some (vaFmt s.countdown) }
    if 0 < s.countdown then
      some { s1 with
             countdown := s1.countdown - 1
             timeoutArmed := true }
    else
      some { s1 with
             timer := some "You can now re-send the code."
             resendDisabled := s1.resendDisabled.map fun _ => false
             timeoutArmed := false }

/-- verify_account.js `initVerifyAccountFlow`: disable the resend button
when present, then run `updateTimer` once with the module initial
`countdown = 60`; `none` is the TypeError thrown at page load when the
timer element is missing. -/
def vaInit (timerEl : Option String) (resendEl : Option Bool) : Option VerifyAccountState :=
  vaUpdateTimer
    { timer := timerEl, resendDisabled := resendEl.map fun _ => true,
      countdown := 60, timeoutArmed := false }

/-- verify_account.js after initialization and `k` timeout firings: a
firing runs `updateTimer` only while a timeout is armed, and a thrown
TypeError propagates (no further code of this script runs). -/
def vaRun (timerEl : Option String) (resendEl : Option Bool) : Nat → Option VerifyAccountState
  | 0 => vaInit timerEl resendEl
  | k + 1 => (vaRun timerEl resendEl k).bind fun s =>
      if s.timeoutArmed then vaUpdateTimer s else some s

/-! ### Step lemmas for token_timer.js -/

theorem updateTimer_noDisplay (re : Option ResendEl) (ve : Option VerifyEl)
    (w : Nat) (c : Int) (a : Bool) :
    updateTimer ⟨none, re, ve, w, c, a⟩ = ⟨none, re, ve, w, c, a⟩ := rfl

theorem updateTimer_exp (d : DisplayEl) (re : Option ResendEl) (ve : Option VerifyEl)
    (w : Nat) (c : Int) (a : Bool) (hc : c ≤ 0) :
    updateTimer ⟨some d, re, ve, w, c, a⟩ =
      ⟨some ⟨expiredMsg⟩, re.map fun _ => ⟨false, false, true, resendLabel⟩,
       ve.map fun _ => ⟨true, true⟩, w + 1, c, false⟩ := by
  simp [updateTimer, hc]

theorem updateTimer_pos (d : DisplayEl) (re : Option ResendEl) (ve : Option VerifyEl)
    (w : Nat) (c : Int) (a : Bool) (hc : 0 < c) :
    updateTimer ⟨some d, re, ve, w, c, a⟩ = ⟨some ⟨fmtTime c⟩, re, ve, w, c - 1, a⟩ := by
  simp [updateTimer, not_le.mpr hc]

theorem initTokenTimer_noDisplay (dr : Option ResendEl) (dv : Option VerifyEl) (c : Int) :
    initTokenTimer ⟨none, dr, dv⟩ c = ⟨none, dr, dv, 0, c, false⟩ := rfl

theorem initTokenTimer_pos (d : DisplayEl) (dr : Option ResendEl) (dv : Option VerifyEl)
    (c : Int) (hc : 0 < c) :
    initTokenTimer ⟨some d, dr, dv⟩ c =
      ⟨some ⟨fmtTime c⟩, dr.map fun r => { r with disabled := true, clsDisabled := true },
       dv.map fun _ => ⟨false, false⟩, 0, c - 1, true⟩ := by
  simp [initTokenTimer, updateTimer, not_le.mpr hc]

theorem initTokenTimer_exp (d : DisplayEl) (dr : Option ResendEl) (dv : Option VerifyEl)
    (c : Int) (hc : c ≤ 0) :
    initTokenTimer ⟨some d, dr, dv⟩ c =
      ⟨some ⟨expiredMsg⟩, dr.map fun _ => ⟨false, false, true, resendLabel⟩,
       dv.map fun _ => ⟨true, true⟩, 1, c, true⟩ := by
  simp [initTokenTimer, updateTimer, hc, Option.map_map]
  constructor
  · ext r
    rfl
  · ext v
    rfl

theorem timerTick_inactive (s : TimerState) (h : s.intervalActive = false) :
    timerTick s = s := by
  simp [timerTick, h]

theorem timerTick_active (s : TimerState) (h : s.intervalActive = true) :
    timerTick s = updateTimer s := by
  simp [timerTick, h]

/-! ### Closed forms for token_timer.js runs with all elements present -/

theorem runTimer_mid (d : DisplayEl) (r : ResendEl) (v : VerifyEl) (n k : Nat) (hk : k < n) :
    runTimer ⟨some d, some r, some v⟩ (n : Int) k =
      ⟨some ⟨fmtTime ((n : Int) - k)⟩, some ⟨true, true, r.clsActive, r.label⟩,
       some ⟨false, false⟩, 0, (n : Int) - k - 1, true⟩ := by
  induction k with
  | zero =>
      have hc : (0 : Int) < (n : Int) := by exact_mod_cast hk
      simp [runTimer, initTokenTimer_pos d (some r) (some v) (n : Int) hc]
  | succ k ih =>
      have hk' : k < n := Nat.lt_of_succ_lt hk
      have hc : (0 : Int) < (n : Int) - k - 1 := by
        have : (k : Int) + 1 < (n : Int) := by exact_mod_cast hk
        omega
      have e1 : (n : Int) - k - 1 = (n : Int) - (k + 1 : Nat) := by
        push_cast
        ring
      rw [show runTimer ⟨some d, some r, some v⟩ (n : Int) (k + 1) =
            timerTick (runTimer ⟨some d, some r, some v⟩ (n : Int) k) from rfl,
          ih hk', timerTick_active _ rfl, updateTimer_pos _ _ _ _ _ _ hc, e1]

theorem runTimer_expired (d : DisplayEl) (r : ResendEl) (v : VerifyEl) (n k : Nat)
    (hn : 1 ≤ n) (hk : n ≤ k) :
    runTimer ⟨some d, some r, some v⟩ (n : Int) k =
      ⟨some ⟨expiredMsg⟩, some ⟨false, false, true, resendLabel⟩,
       some ⟨true, true⟩, 1, 0, false⟩ := by
  induction k with
  | zero => omega
  | succ k ih =>
      rcases Nat.lt_or_ge k n with hlt | hge
      · have he : n = k + 1 := by omega
        have hc0 : (n : Int) - k - 1 = 0 := by
          have : (n : Int) = (k : Int) + 1 := by exact_mod_cast he
          omega
        rw [show runTimer ⟨some d, some r, some v⟩ (n : Int) (k + 1) =
              timerTick (runTimer ⟨some d, some r, some v⟩ (n : Int) k) from rfl,
            runTimer_mid d r v n k hlt, timerTick_active _ rfl,
            updateTimer_exp _ _ _ _ _ _ (le_of_eq hc0), hc0]
        rfl
      · rw [show runTimer ⟨some d, some r, some v⟩ (n : Int) (k + 1) =
              timerTick (runTimer ⟨some d, some r, some v⟩ (n : Int) k) from rfl,
            ih hge, timerTick_inactive _ rfl]

theorem runTimer_zero_init (d : DisplayEl) (r : ResendEl) (v : VerifyEl) :
    runTimer ⟨some d, some r, some v⟩ ((0 : Nat) : Int) 0 =
      ⟨some ⟨expiredMsg⟩, some ⟨false, false, true, resendLabel⟩,
       some ⟨true, true⟩, 1, 0, true⟩ := by
  rw [show runTimer ⟨some d, some r, some v⟩ ((0 : Nat) : Int) 0 =
        initTokenTimer ⟨some d, some r, some v⟩ ((0 : Nat) : Int) from rfl,
      initTokenTimer_exp d (some r) (some v) _ (by norm_num)]
  norm_num

theorem runTimer_zero_succ (d : DisplayEl) (r : ResendEl) (v : VerifyEl) (k : Nat) :
    runTimer ⟨some d, some r, some v⟩ ((0 : Nat) : Int) (k + 1) =
      ⟨some ⟨expiredMsg⟩, some ⟨false, false, true, resendLabel⟩,
       some ⟨true, true⟩, 2, 0, false⟩ := by
  induction k with
  | zero =>
      rw [show runTimer ⟨some d, some r, some v⟩ ((0 : Nat) : Int) 1 =
            timerTick (runTimer ⟨some d, some r, some v⟩ ((0 : Nat) : Int) 0) from rfl,
          runTimer_zero_init d r v, timerTick_active _ rfl,
          updateTimer_exp _ _ _ _ _ _ le_rfl]
      rfl
  | succ k ih =>
      rw [show runTimer ⟨some d, some r, some v⟩ ((0 : Nat) : Int) (k + 2) =
            timerTick (runTimer ⟨some d, some r, some v⟩ ((0 : Nat) : Int) (k + 1)) from rfl,
          ih, timerTick_inactive _ rfl]

/-! ### Step lemmas and closed forms for token_status_checker.js -/

theorem statusTick_inactive (s : StatusState) (h : s.intervalActive = false) :
    statusTick s = s := by
  simp [statusTick, h]

theorem statusTick_mid (cv cr ie : Bool) (tl : Int) (ct vb rb : Option Bool)
    (te : Option String) (h : 1 < tl) :
    statusTick ⟨cv, cr, ie, tl, ct, vb, rb, te, true⟩ =
      ⟨cv, cr, ie, tl - 1, ct, vb, rb, te.map fun _ => toString (tl - 1), true⟩ := by
  simp [statusTick, show ¬(tl - 1 ≤ 0) by omega]

theorem statusTick_exp (cv cr ie : Bool) (tl : Int) (ct vb rb : Option Bool)
    (te : Option String) (h : tl ≤ 1) :
    statusTick ⟨cv, cr, ie, tl, ct, vb, rb, te, true⟩ =
      ⟨false, true, true, tl - 1, ct.map fun _ => true, vb.map fun _ => true,
       rb.map fun _ => false, te.map fun _ => toString (tl - 1), false⟩ := by
  simp [statusTick, updateUI, show tl - 1 ≤ 0 by omega]

theorem initStatus_pos (cv cr ie : Bool) (dom : StatusDom) (ci : Int) (h : 0 < ci) :
    initTokenStatusChecker ⟨cv, cr, ie, ci⟩ dom =
      ⟨cv, cr, ie, ci, dom.codeTextarea.map fun _ => !cv, dom.verifyButton.map fun _ => !cv,
       dom.resendButton.map fun _ => !cr, dom.timerEl, true⟩ := by
  simp [initTokenStatusChecker, updateUI, startCountdown, not_le.mpr h]

theorem initStatus_zero (cv cr ie : Bool) (dom : StatusDom) (ci : Int) (h : ci ≤ 0) :
    initTokenStatusChecker ⟨cv, cr, ie, ci⟩ dom =
      ⟨cv, cr, ie, ci, dom.codeTextarea.map fun _ => !cv, dom.verifyButton.map fun _ => !cv,
       dom.resendButton.map fun _ => !cr, dom.timerEl.map fun _ => "0", false⟩ := by
  simp [initTokenStatusChecker, updateUI, startCountdown, h, Option.map_map]
  refine ⟨?_, ?_, ?_⟩ <;>
    · congr 1

theorem runStatus_mid (cv cr ie : Bool) (dom : StatusDom) (n k : Nat) (hk : k < n) :
    (runStatus ⟨cv, cr, ie, (n : Int)⟩ dom k).canVerify = cv ∧
    (runStatus ⟨cv, cr, ie, (n : Int)⟩ dom k).canResend = cr ∧
    (runStatus ⟨cv, cr, ie, (n : Int)⟩ dom k).isExpired = ie ∧
    (runStatus ⟨cv, cr, ie, (n : Int)⟩ dom k).timeLeft = (n : Int) - k ∧
    (runStatus ⟨cv, cr, ie, (n : Int)⟩ dom k).intervalActive = true := by
  induction k with
  | zero =>
      have hc : (0 : Int) < (n : Int) := by exact_mod_cast hk
      rw [show runStatus ⟨cv, cr, ie, (n : Int)⟩ dom 0 =
            initTokenStatusChecker ⟨cv, cr, ie, (n : Int)⟩ dom from rfl,
          initStatus_pos cv cr ie dom (n : Int) hc]
      norm_num
  | succ k ih =>
      obtain ⟨h1, h2, h3, h4, h5⟩ := ih (Nat.lt_of_succ_lt hk)
      have ht : ¬((runStatus ⟨cv, cr, ie, (n : Int)⟩ dom k).timeLeft - 1 ≤ 0) := by
        rw [h4]
        have : (k : Int) + 1 < (n : Int) := by exact_mod_cast hk
        omega
      rw [show runStatus ⟨cv, cr, ie, (n : Int)⟩ dom (k + 1) =
            statusTick (runStatus ⟨cv, cr, ie, (n : Int)⟩ dom k) from rfl]
      simp only [statusTick, h5, if_true, ht, if_false]
      refine ⟨h1, h2, h3, ?_, trivial⟩
      rw [h4]
      push_cast
      ring

theorem runStatus_expired (cv cr ie : Bool) (dom : StatusDom) (n k : Nat)
    (hn : 1 ≤ n) (hk : n ≤ k) :
    (runStatus ⟨cv, cr, ie, (n : Int)⟩ dom k).isExpired = true ∧
    (runStatus ⟨cv, cr, ie, (n : Int)⟩ dom k).canVerify = false ∧
    (runStatus ⟨cv, cr, ie, (n : Int)⟩ dom k).canResend = true ∧
    (runStatus ⟨cv, cr, ie, (n : Int)⟩ dom k).timeLeft = 0 ∧
    (runStatus ⟨cv, cr, ie, (n : Int)⟩ dom k).intervalActive = false := by
  induction k with
  | zero => omega
  | succ k ih =>
      rw [show runStatus ⟨cv, cr, ie, (n : Int)⟩ dom (k + 1) =
            statusTick (runStatus ⟨cv, cr, ie, (n : Int)⟩ dom k) from rfl]
      rcases Nat.lt_or_ge k n with hlt | hge
      · have he : n = k + 1 := by omega
        obtain ⟨h1, h2, h3, h4, h5⟩ := runStatus_mid cv cr ie dom n k hlt
        have ht : (runStatus ⟨cv, cr, ie, (n : Int)⟩ dom k).timeLeft - 1 ≤ 0 := by
          rw [h4]
          have : (n : Int) = (k : Int) + 1 := by exact_mod_cast he
          omega
        have htz : (runStatus ⟨cv, cr, ie, (n : Int)⟩ dom k).timeLeft - 1 = 0 := by
          rw [h4]
          have : (n : Int) = (k : Int) + 1 := by exact_mod_cast he
          omega
        simp only [statusTick, h5, if_true, ht, if_false, updateUI]
        simp [htz]
      · obtain ⟨h1, h2, h3, h4, h5⟩ := ih hge
        rw [statusTick_inactive _ h5]
        exact ⟨h1, h2, h3, h4, h5⟩

theorem runStatus_zeroCfg (cv cr ie : Bool) (dom : StatusDom) (k : Nat) :
    runStatus ⟨cv, cr, ie, ((0 : Nat) : Int)⟩ dom k =
      ⟨cv, cr, ie, 0, dom.codeTextarea.map fun _ => !cv, dom.verifyButton.map fun _ => !cv,
       dom.resendButton.map fun _ => !cr, dom.timerEl.map fun _ => "0", false⟩ := by
  induction k with
  | zero =>
      rw [show runStatus ⟨cv, cr, ie, ((0 : Nat) : Int)⟩ dom 0 =
            initTokenStatusChecker ⟨cv, cr, ie, ((0 : Nat) : Int)⟩ dom from rfl,
          initStatus_zero cv cr ie dom _ (by norm_num)]
      norm_num
  | succ k ih =>
      rw [show runStatus ⟨cv, cr, ie, ((0 : Nat) : Int)⟩ dom (k + 1) =
            statusTick (runStatus ⟨cv, cr, ie, ((0 : Nat) : Int)⟩ dom k) from rfl,
          ih, statusTick_inactive _ rfl]

/-! ### A missing button is skipped without affecting the rest (token_timer.js) -/

theorem timerTick_eraseResend (s : TimerState) :
    timerTick { s with resend := none } = { timerTick s with resend := none } := by
  obtain ⟨dd, re, ve, w, c, a⟩ := s
  cases a <;> cases dd <;> by_cases hc : c ≤ 0 <;> simp [timerTick, updateTimer, hc]

theorem timerTick_eraseVerify (s : TimerState) :
    timerTick { s with verify := none } = { timerTick s with verify := none } := by
  obtain ⟨dd, re, ve, w, c, a⟩ := s
  cases a <;> cases dd <;> by_cases hc : c ≤ 0 <;> simp [timerTick, updateTimer, hc]

theorem initTokenTimer_eraseResend (dd : Option DisplayEl) (re : Option ResendEl)
    (dv : Option VerifyEl) (c : Int) :
    initTokenTimer ⟨dd, none, dv⟩ c = { initTokenTimer ⟨dd, re, dv⟩ c with resend := none } := by
  cases dd <;> by_cases hc : c ≤ 0 <;> simp [initTokenTimer, updateTimer, hc]

theorem initTokenTimer_eraseVerify (dd : Option DisplayEl) (re : Option ResendEl)
    (dv : Option VerifyEl) (c : Int) :
    initTokenTimer ⟨dd, re, none⟩ c = { initTokenTimer ⟨dd, re, dv⟩ c with verify := none } := by
  cases dd <;> by_cases hc : c ≤ 0 <;> simp [initTokenTimer, updateTimer, hc]

theorem runTimer_eraseResend (dd : Option DisplayEl) (re : Option ResendEl)
    (dv : Option VerifyEl) (c : Int) (k : Nat) :
    runTimer ⟨dd, none, dv⟩ c k = { runTimer ⟨dd, re, dv⟩ c k with resend := none } := by
  induction k with
  | zero => exact initTokenTimer_eraseResend dd re dv c
  | succ k ih =>
      rw [show runTimer ⟨dd, none, dv⟩ c (k + 1) =
            timerTick (runTimer ⟨dd, none, dv⟩ c k) from rfl, ih,
          timerTick_eraseResend]
      rfl

theorem runTimer_eraseVerify (dd : Option DisplayEl) (re : Option ResendEl)
    (dv : Option VerifyEl) (c : Int) (k : Nat) :
    runTimer ⟨dd, re, none⟩ c k = { runTimer ⟨dd, re, dv⟩ c k with verify := none } := by
  induction k with
  | zero => exact initTokenTimer_eraseVerify dd re dv c
  | succ k ih =>
      rw [show runTimer ⟨dd, re, none⟩ c (k + 1) =
            timerTick (runTimer ⟨dd, re, none⟩ c k) from rfl, ih,
          timerTick_eraseVerify]
      rfl

/-! ### A missing element is skipped without affecting the rest (token_status_checker.js) -/

theorem statusTick_eraseTextarea (s : StatusState) :
    statusTick { s with codeTextarea := none } = { statusTick s with codeTextarea := none } := by
  obtain ⟨cv, cr, ie, tl, ct, vb, rb, te, a⟩ := s
  cases a <;> by_cases ht : tl - 1 ≤ 0 <;> simp [statusTick, updateUI, ht]

theorem statusTick_eraseVerifyBtn (s : StatusState) :
    statusTick { s with verifyButton := none } = { statusTick s with verifyButton := none } := by
  obtain ⟨cv, cr, ie, tl, ct, vb, rb, te, a⟩ := s
  cases a <;> by_cases ht : tl - 1 ≤ 0 <;> simp [statusTick, updateUI, ht]

theorem statusTick_eraseResendBtn (s : StatusState) :
    statusTick { s with resendButton := none } = { statusTick s with resendButton := none } := by
  obtain ⟨cv, cr, ie, tl, ct, vb, rb, te, a⟩ := s
  cases a <;> by_cases ht : tl - 1 ≤ 0 <;> simp [statusTick, updateUI, ht]

theorem statusTick_eraseTimerEl (s : StatusState) :
    statusTick { s with timerEl := none } = { statusTick s with timerEl := none } := by
  obtain ⟨cv, cr, ie, tl, ct, vb, rb, te, a⟩ := s
  cases a <;> by_cases ht : tl - 1 ≤ 0 <;> simp [statusTick, updateUI, ht]

theorem initStatus_eraseTextarea (cfg : StatusConfig) (dom : StatusDom) :
    initTokenStatusChecker cfg { dom with codeTextarea := none } =
      { initTokenStatusChecker cfg dom with codeTextarea := none } := by
  obtain ⟨cv, cr, ie, ci⟩ := cfg
  obtain ⟨ct, vb, rb, te⟩ := dom
  by_cases h : ci ≤ 0 <;> simp [initTokenStatusChecker, updateUI, startCountdown, h]

theorem initStatus_eraseVerifyBtn (cfg : StatusConfig) (dom : StatusDom) :
    initTokenStatusChecker cfg { dom with verifyButton := none } =
      { initTokenStatusChecker cfg dom with verifyButton := none } := by
  obtain ⟨cv, cr, ie, ci⟩ := cfg
  obtain ⟨ct, vb, rb, te⟩ := dom
  by_cases h : ci ≤ 0 <;> simp [initTokenStatusChecker, updateUI, startCountdown, h]

theorem initStatus_eraseResendBtn (cfg : StatusConfig) (dom : StatusDom) :
    initTokenStatusChecker cfg { dom with resendButton := none } =
      { initTokenStatusChecker cfg dom with resendButton := none } := by
  obtain ⟨cv, cr, ie, ci⟩ := cfg
  obtain ⟨ct, vb, rb, te⟩ := dom
  by_cases h : ci ≤ 0 <;> simp [initTokenStatusChecker, updateUI, startCountdown, h]

theorem initStatus_eraseTimerEl (cfg : StatusConfig) (dom : StatusDom) :
    initTokenStatusChecker cfg { dom with timerEl := none } =
      { initTokenStatusChecker cfg dom with timerEl := none } := by
  obtain ⟨cv, cr, ie, ci⟩ := cfg
  obtain ⟨ct, vb, rb, te⟩ := dom
  by_cases h : ci ≤ 0 <;> simp [initTokenStatusChecker, updateUI, startCountdown, h]

theorem runStatus_eraseTextarea (cfg : StatusConfig) (dom : StatusDom) (k : Nat) :
    runStatus cfg { dom with codeTextarea := none } k =
      { runStatus cfg dom k with codeTextarea := none } := by
  induction k with
  | zero => exact initStatus_eraseTextarea cfg dom
  | succ k ih =>
      rw [show runStatus cfg { dom with codeTextarea := none } (k + 1) =
            statusTick (runStatus cfg { dom with codeTextarea := none } k) from rfl, ih,
          statusTick_eraseTextarea]
      rfl

theorem runStatus_eraseVerifyBtn (cfg : StatusConfig) (dom : StatusDom) (k : Nat) :
    runStatus cfg { dom with verifyButton := none } k =
      { runStatus cfg dom k with verifyButton := none } := by
  induction k with
  | zero => exact initStatus_eraseVerifyBtn cfg dom
  | succ k ih =>
      rw [show runStatus cfg { dom with verifyButton := none } (k + 1) =
            statusTick (runStatus cfg { dom with verifyButton := none } k) from rfl, ih,
          statusTick_eraseVerifyBtn]
      rfl

theorem runStatus_eraseResendBtn (cfg : StatusConfig) (dom : StatusDom) (k : Nat) :
    runStatus cfg { dom with resendButton := none } k =
      { runStatus cfg dom k with resendButton := none } := by
  induction k with
  | zero => exact initStatus_eraseResendBtn cfg dom
  | succ k ih =>
      rw [show runStatus cfg { dom with resendButton := none } (k + 1) =
            statusTick (runStatus cfg { dom with resendButton := none } k) from rfl, ih,
          statusTick_eraseResendBtn]
      rfl

theorem runStatus_eraseTimerEl (cfg : StatusConfig) (dom : StatusDom) (k : Nat) :
    runStatus cfg { dom with timerEl := none } k =
      { runStatus cfg dom k with timerEl := none } := by
  induction k with
  | zero => exact initStatus_eraseTimerEl cfg dom
  | succ k ih =>
      rw [show runStatus cfg { dom with timerEl := none } (k + 1) =
            statusTick (runStatus cfg { dom with timerEl := none } k) from rfl, ih,
          statusTick_eraseTimerEl]
      rfl

/-- token_timer.js with the display element missing: `initTokenTimer`
returns before touching anything and every tick is a no-op, so the state
stays the page-initial one forever. -/
theorem runTimer_noDisplay (dr : Option ResendEl) (dv : Option VerifyEl) (c : Int) (k : Nat) :
    runTimer ⟨none, dr, dv⟩ c k = ⟨none, dr, dv, 0, c, false⟩ := by
  induction k with
  | zero => rfl
  | succ k ih =>
      rw [show runTimer ⟨none, dr, dv⟩ c (k + 1) =
            timerTick (runTimer ⟨none, dr, dv⟩ c k) from rfl, ih,
          timerTick_inactive _ rfl]


/-! ### verify_account.js: a missing resend button is tolerated, a missing
timer element throws -/

theorem vaUpdateTimer_eraseResend (s : VerifyAccountState) :
    vaUpdateTimer { s with resendDisabled := none } =
      (vaUpdateTimer s).map fun t => { t with resendDisabled := none } := by
  obtain ⟨te, rd, c, a⟩ := s
  cases te <;> by_cases hc : 0 < c <;> simp [vaUpdateTimer, hc]

theorem vaInit_eraseResend (te : Option String) (re : Option Bool) :
    vaInit te none = (vaInit te re).map fun t => { t with resendDisabled := none } := by
  unfold vaInit
  exact vaUpdateTimer_eraseResend ⟨te, re.map fun _ => true, 60, false⟩

theorem vaRun_eraseResend (te : Option String) (re : Option Bool) (k : Nat) :
    vaRun te none k = (vaRun te re k).map fun t => { t with resendDisabled := none } := by
  induction k with
  | zero => exact vaInit_eraseResend te re
  | succ k ih =>
      rw [show vaRun te none (k + 1) = (vaRun te none k).bind
            (fun s => if s.timeoutArmed then vaUpdateTimer s else some s) from rfl,
          show vaRun te re (k + 1) = (vaRun te re k).bind
            (fun s => if s.timeoutArmed then vaUpdateTimer s else some s) from rfl, ih]
      cases vaRun te re k with
      | none => rfl
      | some t =>
          obtain ⟨tt, rd, c, a⟩ := t
          cases a with
          | false => rfl
          | true => exact vaUpdateTimer_eraseResend ⟨tt, rd, c, true⟩

theorem vaRun_noTimer (re : Option Bool) (k : Nat) : vaRun none re k = none := by
  induction k with
  | zero => rfl
  | succ k ih =>
      rw [show vaRun none re (k + 1) = (vaRun none re k).bind
            (fun s => if s.timeoutArmed then vaUpdateTimer s else some s) from rfl, ih]
      rfl

/-! ### Monotonicity and persistence lemmas -/

theorem statusTick_timeLeft_le (s : StatusState) : (statusTick s).timeLeft ≤ s.timeLeft := by
  obtain ⟨cv, cr, ie, tl, ct, vb, rb, te, a⟩ := s
  cases a <;> by_cases ht : tl - 1 ≤ 0 <;> simp [statusTick, updateUI, ht] <;> omega

theorem statusTick_isExpired_mono (s : StatusState) (h : s.isExpired = true) :
    (statusTick s).isExpired = true := by
  obtain ⟨cv, cr, ie, tl, ct, vb, rb, te, a⟩ := s
  simp only at h
  subst h
  cases a <;> simp [statusTick, updateUI] <;> split <;> rfl

theorem timerTick_countdown_le (s : TimerState) : (timerTick s).countdown ≤ s.countdown := by
  obtain ⟨dd, re, ve, w, c, a⟩ := s
  cases a <;> cases dd <;> by_cases hc : c ≤ 0 <;> simp [timerTick, updateTimer, hc] <;> omega

theorem timerTick_expiredButtons (s : TimerState)
    (hv : s.verify = some ⟨true, true⟩)
    (hr : s.resend = some ⟨false, false, true, resendLabel⟩) :
    (timerTick s).verify = some ⟨true, true⟩ ∧
    (timerTick s).resend = some ⟨false, false, true, resendLabel⟩ := by
  obtain ⟨dd, re, ve, w, c, a⟩ := s
  simp only at hv hr
  subst hv
  subst hr
  cases a <;> cases dd <;> by_cases hc : c ≤ 0 <;> simp [timerTick, updateTimer, hc]

theorem runStatus_timeLeft_antitone (cfg : StatusConfig) (dom : StatusDom) (j k : Nat)
    (h : j ≤ k) :
    (runStatus cfg dom k).timeLeft ≤ (runStatus cfg dom j).timeLeft := by
  induction k with
  | zero =>
      have : j = 0 := Nat.le_zero.mp h
      subst this
      exact le_refl _
  | succ k ih =>
      by_cases hj : j ≤ k
      · exact le_trans (statusTick_timeLeft_le _) (ih hj)
      · have : j = k + 1 := by omega
        subst this
        exact le_refl _

theorem runStatus_expired_persist (cfg : StatusConfig) (dom : StatusDom) (j k : Nat)
    (h : j ≤ k) (he : (runStatus cfg dom j).isExpired = true) :
    (runStatus cfg dom k).isExpired = true := by
  induction k with
  | zero =>
      have : j = 0 := Nat.le_zero.mp h
      subst this
      exact he
  | succ k ih =>
      by_cases hj : j ≤ k
      · exact statusTick_isExpired_mono _ (ih hj)
      · have : j = k + 1 := by omega
        subst this
        exact he

theorem runTimer_countdown_antitone (dom : TimerDom) (c : Int) (j k : Nat) (h : j ≤ k) :
    (runTimer dom c k).countdown ≤ (runTimer dom c j).countdown := by
  induction k with
  | zero =>
      have : j = 0 := Nat.le_zero.mp h
      subst this
      exact le_refl _
  | succ k ih =>
      by_cases hj : j ≤ k
      · exact le_trans (timerTick_countdown_le _) (ih hj)
      · have : j = k + 1 := by omega
        subst this
        exact le_refl _

theorem runTimer_expiredButtons_persist (dom : TimerDom) (c : Int) (j k : Nat) (h : j ≤ k)
    (hv : (runTimer dom c j).verify = some ⟨true, true⟩)
    (hr : (runTimer dom c j).resend = some ⟨false, false, true, resendLabel⟩) :
    (runTimer dom c k).verify = some ⟨true, true⟩ ∧
    (runTimer dom c k).resend = some ⟨false, false, true, resendLabel⟩ := by
  induction k with
  | zero =>
      have : j = 0 := Nat.le_zero.mp h
      subst this
      exact ⟨hv, hr⟩
  | succ k ih =>
      by_cases hj : j ≤ k
      · obtain ⟨h1, h2⟩ := ih hj
        exact timerTick_expiredButtons _ h1 h2
      · have : j = k + 1 := by omega
        subst this
        exact ⟨hv, hr⟩

/-! ### The strict controller never enables both controls -/

theorem timerTick_inv (s : TimerState) (h1 : s.display.isSome = true)
    (h2 : (timerCanVerify s && timerCanResend s) = false) :
    (timerTick s).display.isSome = true ∧
    (timerCanVerify (timerTick s) && timerCanResend (timerTick s)) = false := by
  obtain ⟨dd, re, ve, w, c, a⟩ := s
  cases dd with
  | none => simp at h1
  | some d =>
      cases a with
      | false =>
          rw [timerTick_inactive _ rfl]
          exact ⟨h1, h2⟩
      | true =>
          by_cases hc : c ≤ 0
          · rw [timerTick_active _ rfl, updateTimer_exp d re ve w c _ hc]
            cases ve <;> simp [timerCanVerify, timerCanResend]
          · rw [timerTick_active _ rfl, updateTimer_pos d re ve w c _ (not_le.mp hc)]
            exact ⟨rfl, h2⟩

theorem timer_inv (d : DisplayEl) (r : ResendEl) (v : VerifyEl) (c : Int) (k : Nat) :
    (runTimer ⟨some d, some r, some v⟩ c k).display.isSome = true ∧
    (timerCanVerify (runTimer ⟨some d, some r, some v⟩ c k) &&
     timerCanResend (runTimer ⟨some d, some r, some v⟩ c k)) = false := by
  induction k with
  | zero =>
      by_cases hc : c ≤ 0
      · rw [show runTimer ⟨some d, some r, some v⟩ c 0 =
              initTokenTimer ⟨some d, some r, some v⟩ c from rfl,
            initTokenTimer_exp d (some r) (some v) c hc]
        simp [timerCanVerify, timerCanResend]
      · rw [show runTimer ⟨some d, some r, some v⟩ c 0 =
              initTokenTimer ⟨some d, some r, some v⟩ c from rfl,
            initTokenTimer_pos d (some r) (some v) c (not_le.mp hc)]
        simp [timerCanVerify, timerCanResend]
  | succ k ih =>
      exact timerTick_inv _ ih.1 ih.2

/-! ### Interval activity along a run -/

theorem runTimer_active_eq (d : DisplayEl) (r : ResendEl) (v : VerifyEl) (n k : Nat) :
    (runTimer ⟨some d, some r, some v⟩ (n : Int) k).intervalActive = decide (k < max n 1) := by
  rcases Nat.eq_zero_or_pos n with hn | hn
  · subst hn
    cases k with
    | zero =>
        rw [runTimer_zero_init]
        rfl
    | succ k =>
        rw [runTimer_zero_succ]
        simp
  · rcases Nat.lt_or_ge k n with hk | hk
    · rw [runTimer_mid d r v n k hk]
      have : max n 1 = n := Nat.max_eq_left hn
      rw [this]
      simp [hk]
    · rw [runTimer_expired d r v n k hn hk]
      have : max n 1 = n := Nat.max_eq_left hn
      rw [this]
      simp
      omega

theorem runStatus_active_eq (cv cr ie : Bool) (dom : StatusDom) (n k : Nat) :
    (runStatus ⟨cv, cr, ie, (n : Int)⟩ dom k).intervalActive = decide (k < n) := by
  rcases Nat.eq_zero_or_pos n with hn | hn
  · subst hn
    rw [runStatus_zeroCfg]
    simp
  · rcases Nat.lt_or_ge k n with hk | hk
    · rw [(runStatus_mid cv cr ie dom n k hk).2.2.2.2]
      simp [hk]
    · rw [(runStatus_expired cv cr ie dom n k hn hk).2.2.2.2]
      simp
      omega

/-! ### The claims -/

/-- Claim C10: for every password string, after an input event the checklist
container is hidden exactly when the password satisfies all five rules
(length at least 8, an uppercase letter, a lowercase letter, a digit, a
non-alphanumeric character), and each checklist item carries the valid class
exactly when its corresponding rule holds. -/
theorem claim10_password_checklist (val : String) :
    ((onPasswordInput val).containerDisplay = "none" ↔
      (8 ≤ val.length ∧
       (∃ c ∈ val.data, 'A' ≤ c ∧ c ≤ 'Z') ∧
       (∃ c ∈ val.data, 'a' ≤ c ∧ c ≤ 'z') ∧
       (∃ c ∈ val.data, '0' ≤ c ∧ c ≤ '9') ∧
       (∃ c ∈ val.data,
         ¬(('A' ≤ c ∧ c ≤ 'Z') ∨ ('a' ≤ c ∧ c ≤ 'z') ∨ ('0' ≤ c ∧ c ≤ '9'))))) ∧
    ((onPasswordInput val).lengthValid = true ↔ 8 ≤ val.length) ∧
    ((onPasswordInput val).uppercaseValid = true ↔ ∃ c ∈ val.data, 'A' ≤ c ∧ c ≤ 'Z') ∧
    ((onPasswordInput val).lowercaseValid = true ↔ ∃ c ∈ val.data, 'a' ≤ c ∧ c ≤ 'z') ∧
    ((onPasswordInput val).numberValid = true ↔ ∃ c ∈ val.data, '0' ≤ c ∧ c ≤ '9') ∧
    ((onPasswordInput val).symbolValid = true ↔
      ∃ c ∈ val.data,
        ¬(('A' ≤ c ∧ c ≤ 'Z') ∨ ('a' ≤ c ∧ c ≤ 'z') ∨ ('0' ≤ c ∧ c ≤ '9'))) := by
  have hupper : ∀ ch : Char, isUpperCh ch = true ↔ ('A' ≤ ch ∧ ch ≤ 'Z') := by
    intro ch
    simp [isUpperCh]
  have hlower : ∀ ch : Char, isLowerCh ch = true ↔ ('a' ≤ ch ∧ ch ≤ 'z') := by
    intro ch
    simp [isLowerCh]
  have hdigit : ∀ ch : Char, isDigitCh ch = true ↔ ('0' ≤ ch ∧ ch ≤ '9') := by
    intro ch
    simp [isDigitCh]
  have hchar : ∀ ch : Char, (!(isUpperCh ch || isLowerCh ch || isDigitCh ch)) = true ↔
      ¬(('A' ≤ ch ∧ ch ≤ 'Z') ∨ ('a' ≤ ch ∧ ch ≤ 'z') ∨ ('0' ≤ ch ∧ ch ≤ '9')) := by
    intro ch
    rw [Bool.not_eq_true', Bool.or_eq_false_iff, Bool.or_eq_false_iff]
    constructor
    · rintro ⟨⟨h1, h2⟩, h3⟩ (hA | hB | hC)
      · exact absurd ((hupper ch).mpr hA) (by simp [h1])
      · exact absurd ((hlower ch).mpr hB) (by simp [h2])
      · exact absurd ((hdigit ch).mpr hC) (by simp [h3])
    · intro h
      refine ⟨⟨?_, ?_⟩, ?_⟩
      · cases hu : isUpperCh ch with
        | false => rfl
        | true => exact absurd (Or.inl ((hupper ch).mp hu)) h
      · cases hl : isLowerCh ch with
        | false => rfl
        | true => exact absurd (Or.inr (Or.inl ((hlower ch).mp hl))) h
      · cases hd : isDigitCh ch with
        | false => rfl
        | true => exact absurd (Or.inr (Or.inr ((hdigit ch).mp hd))) h
  have hLen : (decide (8 ≤ val.length)) = true ↔ 8 ≤ val.length := by
    exact decide_eq_true_iff
  have hU : val.data.any isUpperCh = true ↔ ∃ c ∈ val.data, 'A' ≤ c ∧ c ≤ 'Z' := by
    rw [List.any_eq_true]
    exact exists_congr fun c => and_congr_right fun _ => hupper c
  have hL : val.data.any isLowerCh = true ↔ ∃ c ∈ val.data, 'a' ≤ c ∧ c ≤ 'z' := by
    rw [List.any_eq_true]
    exact exists_congr fun c => and_congr_right fun _ => hlower c
  have hN : val.data.any isDigitCh = true ↔ ∃ c ∈ val.data, '0' ≤ c ∧ c ≤ '9' := by
    rw [List.any_eq_true]
    exact exists_congr fun c => and_congr_right fun _ => hdigit c
  have hS : (val.data.any fun c => !(isUpperCh c || isLowerCh c || isDigitCh c)) = true ↔
      ∃ c ∈ val.data,
        ¬(('A' ≤ c ∧ c ≤ 'Z') ∨ ('a' ≤ c ∧ c ≤ 'z') ∨ ('0' ≤ c ∧ c ≤ '9')) := by
    rw [List.any_eq_true]
    exact exists_congr fun c => and_congr_right fun _ => hchar c
  have master : (decide (8 ≤ val.length) && val.data.any isUpperCh && val.data.any isLowerCh &&
      val.data.any isDigitCh &&
      val.data.any fun c => !(isUpperCh c || isLowerCh c || isDigitCh c)) = true ↔
      (8 ≤ val.length ∧
       (∃ c ∈ val.data, 'A' ≤ c ∧ c ≤ 'Z') ∧
       (∃ c ∈ val.data, 'a' ≤ c ∧ c ≤ 'z') ∧
       (∃ c ∈ val.data, '0' ≤ c ∧ c ≤ '9') ∧
       (∃ c ∈ val.data,
         ¬(('A' ≤ c ∧ c ≤ 'Z') ∨ ('a' ≤ c ∧ c ≤ 'z') ∨ ('0' ≤ c ∧ c ≤ '9')))) := by
    simp only [Bool.and_eq_true]
    constructor
    · rintro ⟨⟨⟨⟨h1, h2⟩, h3⟩, h4⟩, h5⟩
      exact ⟨hLen.mp h1, hU.mp h2, hL.mp h3, hN.mp h4, hS.mp h5⟩
    · rintro ⟨h1, h2, h3, h4, h5⟩
      exact ⟨⟨⟨⟨hLen.mpr h1, hU.mpr h2⟩, hL.mpr h3⟩, hN.mpr h4⟩, hS.mpr h5⟩
  have hb : ¬(("block" : String) = "none") := by decide
  have hcd : (onPasswordInput val).containerDisplay =
      if (decide (8 ≤ val.length) && val.data.any isUpperCh && val.data.any isLowerCh &&
          val.data.any isDigitCh &&
          val.data.any fun c => !(isUpperCh c || isLowerCh c || isDigitCh c)) then
        "none"
      else "block" := rfl
  refine ⟨?_, hLen, hU, hL, hN, hS⟩
  rw [hcd]
  by_cases hall : (decide (8 ≤ val.length) && val.data.any isUpperCh && val.data.any isLowerCh &&
      val.data.any isDigitCh &&
      val.data.any fun c => !(isUpperCh c || isLowerCh c || isDigitCh c)) = true
  · rw [if_pos hall]
    exact iff_of_true rfl (master.mp hall)
  · rw [if_neg hall]
    exact iff_of_false hb fun hp => hall (master.mpr hp)

/-- Claim C7: in the strict countdown controller variant (token_timer.js,
which disables resend at start, enables verify at start and swaps both at
expiry), in every state reachable from initialization through any number of
ticks the verify control and the resend control are never both enabled. -/
theorem claim7_never_both_enabled (d : DisplayEl) (r : ResendEl) (v : VerifyEl)
    (c : Int) (k : Nat) :
    (timerCanVerify (runTimer ⟨some d, some r, some v⟩ c k) &&
     timerCanResend (runTimer ⟨some d, some r, some v⟩ c k)) = false :=
  (timer_inv d r v c k).2

/-- Claim C4, amended: in token_timer.js a missing verify or resend control
is silently skipped and the run is otherwise identical, and in
token_status_checker.js a missing textarea, verify button, resend button or
timer element is silently skipped with the rest identical; but in
token_timer.js a missing timer display short-circuits the whole controller
(without an error): the state, including both buttons, stays the
page-initial one forever; and in verify_account.js a missing resend button
is tolerated (skipped, rest identical) while a missing timer element makes
every rendering call throw a TypeError, which propagates from
initialization onward. -/
theorem claim4_missing_element (dd : Option DisplayEl) (re : Option ResendEl)
    (dv : Option VerifyEl) (c : Int) (cfg : StatusConfig) (dom : StatusDom)
    (dr : Option ResendEl) (c2 : Int) (te : Option String) (re2 : Option Bool) (k : Nat) :
    (runTimer ⟨dd, none, dv⟩ c k = { runTimer ⟨dd, re, dv⟩ c k with resend := none }) ∧
    (runTimer ⟨dd, re, none⟩ c k = { runTimer ⟨dd, re, dv⟩ c k with verify := none }) ∧
    (runStatus cfg { dom with codeTextarea := none } k =
      { runStatus cfg dom k with codeTextarea := none }) ∧
    (runStatus cfg { dom with verifyButton := none } k =
      { runStatus cfg dom k with verifyButton := none }) ∧
    (runStatus cfg { dom with resendButton := none } k =
      { runStatus cfg dom k with resendButton := none }) ∧
    (runStatus cfg { dom with timerEl := none } k =
      { runStatus cfg dom k with timerEl := none }) ∧
    (runTimer ⟨none, dr, dv⟩ c2 k = ⟨none, dr, dv, 0, c2, false⟩) ∧
    (vaRun te none k = (vaRun te re2 k).map fun t => { t with resendDisabled := none }) ∧
    (vaRun none re2 k = none) :=
  ⟨runTimer_eraseResend dd re dv c k, runTimer_eraseVerify dd re dv c k,
   runStatus_eraseTextarea cfg dom k, runStatus_eraseVerifyBtn cfg dom k,
   runStatus_eraseResendBtn cfg dom k, runStatus_eraseTimerEl cfg dom k,
   runTimer_noDisplay dr dv c2 k, vaRun_eraseResend te re2 k, vaRun_noTimer re2 k⟩

/-- Claim C4, counterexample: with the timer display missing,
token_timer.js leaves the resend button in its page-initial enabled state
at initialization, while with the display present the same initialization
disables it — so a missing bound element does affect the state of the other
bound elements; and in the verify_account.js variant, initialization with
the timer element missing throws a TypeError (the unguarded `innerText`
write), while with the element present it succeeds — so rendering with a
missing bound element does throw in that variant. -/
theorem claim4_counterexample :
    ((runTimer ⟨none, some sampleResend, some sampleVerify⟩ 5 0).resend = some sampleResend ∧
     sampleResend.disabled = false ∧
     (runTimer ⟨some sampleDisplay, some sampleResend, some sampleVerify⟩ 5 0).resend =
       some ⟨true, true, false, "Re-send"⟩) ∧
    (vaInit none (some false) = none ∧
     vaInit (some "") (some false) =
       some ⟨some (vaFmt 60), some true, 59, true⟩) :=
  ⟨⟨rfl, rfl, rfl⟩, ⟨rfl, rfl⟩⟩

/-- Claim C6, amended: with `initialSeconds = 0` and no ticks elapsed,
token_timer.js immediately reports the expired state (expired message
displayed, verify disabled, resend enabled); token_status_checker.js
instead renders `0` and applies the configured flags unchanged, so it
reports the expired state only when the configuration already says so. -/
theorem claim6_zero_initialization (d : DisplayEl) (r : ResendEl) (v : VerifyEl)
    (cv cr ie : Bool) (dom : StatusDom) :
    ((initTokenTimer ⟨some d, some r, some v⟩ 0).display = some ⟨expiredMsg⟩ ∧
     (initTokenTimer ⟨some d, some r, some v⟩ 0).verify = some ⟨true, true⟩ ∧
     (initTokenTimer ⟨some d, some r, some v⟩ 0).resend =
       some ⟨false, false, true, resendLabel⟩) ∧
    (initTokenStatusChecker ⟨cv, cr, ie, 0⟩ dom =
      ⟨cv, cr, ie, 0, dom.codeTextarea.map fun _ => !cv, dom.verifyButton.map fun _ => !cv,
       dom.resendButton.map fun _ => !cr, dom.timerEl.map fun _ => "0", false⟩) := by
  constructor
  · rw [initTokenTimer_exp d (some r) (some v) 0 le_rfl]
    exact ⟨rfl, rfl, rfl⟩
  · exact initStatus_zero cv cr ie dom 0 le_rfl

/-- Claim C6, counterexample: token_status_checker.js initialized with
`initialCountdown = 0` and a configuration that is not already expired does
not report the expired state: the flags keep their configured values and
the verify control stays enabled. -/
theorem claim6_counterexample :
    (initTokenStatusChecker ⟨true, true, false, 0⟩ statusDomAll).isExpired = false ∧
    (initTokenStatusChecker ⟨true, true, false, 0⟩ statusDomAll).canVerify = true ∧
    (initTokenStatusChecker ⟨true, true, false, 0⟩ statusDomAll).verifyButton = some false ∧
    (initTokenStatusChecker ⟨true, true, false, 0⟩ statusDomAll).timerEl = some "0" :=
  ⟨rfl, rfl, rfl, rfl⟩

/-- Claim C1, amended: after `n ≥ 1` ticks both controller variants report
the expired state (`isExpired = true`, verify disabled, resend enabled);
for `n = 0` token_timer.js reports the expired state already at
initialization (so after 0 ticks), while token_status_checker.js keeps the
configured flags unchanged, reporting expired only if configured so. -/
theorem claim1_expiry_after_n_ticks (cv cr ie : Bool) (dom : StatusDom)
    (d : DisplayEl) (r : ResendEl) (v : VerifyEl) (n : Nat) :
    ((runStatus ⟨cv, cr, ie, ((n + 1 : Nat) : Int)⟩ dom (n + 1)).isExpired = true ∧
     (runStatus ⟨cv, cr, ie, ((n + 1 : Nat) : Int)⟩ dom (n + 1)).canVerify = false ∧
     (runStatus ⟨cv, cr, ie, ((n + 1 : Nat) : Int)⟩ dom (n + 1)).canResend = true) ∧
    ((runTimer ⟨some d, some r, some v⟩ ((n : Nat) : Int) n).display = some ⟨expiredMsg⟩ ∧
     (runTimer ⟨some d, some r, some v⟩ ((n : Nat) : Int) n).verify = some ⟨true, true⟩ ∧
     (runTimer ⟨some d, some r, some v⟩ ((n : Nat) : Int) n).resend =
       some ⟨false, false, true, resendLabel⟩) ∧
    ((runStatus ⟨cv, cr, ie, ((0 : Nat) : Int)⟩ dom 0).isExpired = ie ∧
     (runStatus ⟨cv, cr, ie, ((0 : Nat) : Int)⟩ dom 0).canVerify = cv ∧
     (runStatus ⟨cv, cr, ie, ((0 : Nat) : Int)⟩ dom 0).canResend = cr) := by
  refine ⟨?_, ?_, ?_⟩
  · obtain ⟨h1, h2, h3, h4, h5⟩ :=
      runStatus_expired cv cr ie dom (n + 1) (n + 1) (by omega) le_rfl
    exact ⟨h1, h2, h3⟩
  · cases n with
    | zero =>
        rw [runTimer_zero_init d r v]
        exact ⟨rfl, rfl, rfl⟩
    | succ m =>
        rw [runTimer_expired d r v (m + 1) (m + 1) (by omega) le_rfl]
        exact ⟨rfl, rfl, rfl⟩
  · rw [runStatus_zeroCfg cv cr ie dom 0]
    exact ⟨rfl, rfl, rfl⟩

/-- Claim C1, counterexample: for the valid initial countdown value
`n = 0`, token_status_checker.js initialized non-expired reports, after
`n = 0` ticks, `isExpired = false`, `canVerify = true`, `canResend = false`
instead of the claimed expired state. -/
theorem claim1_counterexample :
    (runStatus ⟨true, false, false, 0⟩ statusDomAll 0).isExpired = false ∧
    (runStatus ⟨true, false, false, 0⟩ statusDomAll 0).canVerify = true ∧
    (runStatus ⟨true, false, false, 0⟩ statusDomAll 0).canResend = false :=
  ⟨rfl, rfl, rfl⟩

/-- Claim C2: starting from `n > 0`, after `k < n` ticks
token_status_checker.js (initialized non-expired) has `timeLeft = n - k`
and `isExpired = false`, and the token_timer.js display shows the rendering
of `n - k` remaining seconds. -/
theorem claim2_remaining_after_k_ticks (cv cr : Bool) (dom : StatusDom)
    (d : DisplayEl) (r : ResendEl) (v : VerifyEl) (n k : Nat) (hk : k < n) :
    ((runStatus ⟨cv, cr, false, (n : Int)⟩ dom k).timeLeft = (n : Int) - k ∧
     (runStatus ⟨cv, cr, false, (n : Int)⟩ dom k).isExpired = false) ∧
    (runTimer ⟨some d, some r, some v⟩ (n : Int) k).display =
      some ⟨fmtTime ((n : Int) - k)⟩ := by
  obtain ⟨h1, h2, h3, h4, h5⟩ := runStatus_mid cv cr false dom n k hk
  refine ⟨⟨h4, h3⟩, ?_⟩
  rw [runTimer_mid d r v n k hk]

/-- Claim C2, witness at `n = 3`, `k = 1`. -/
theorem claim2_witness :
    1 < 3 ∧
    (((runStatus ⟨true, false, false, ((3 : Nat) : Int)⟩ statusDomAll 1).timeLeft =
        ((3 : Nat) : Int) - (1 : Nat) ∧
      (runStatus ⟨true, false, false, ((3 : Nat) : Int)⟩ statusDomAll 1).isExpired = false) ∧
     (runTimer ⟨some sampleDisplay, some sampleResend, some sampleVerify⟩
         ((3 : Nat) : Int) 1).display = some ⟨fmtTime (((3 : Nat) : Int) - (1 : Nat))⟩) :=
  ⟨by decide,
   claim2_remaining_after_k_ticks true false statusDomAll
     sampleDisplay sampleResend sampleVerify 3 1 (by decide)⟩

/-- Claim C3, amended: a token_status_checker.js tick decrements `timeLeft`
by 1, renders the decremented value as a plain number, and exactly when the
result is `<= 0` stops the recurring callback and sets `isExpired = true`,
`canVerify = false`, `canResend = true` (no expired message is rendered);
a token_timer.js tick that enters with `countdown <= 0` stops the callback,
renders the expired message, disables verify and enables resend without
decrementing, while a tick entering with `countdown > 0` renders
`minutes:seconds` (zero-padded) and then decrements, so the expiry actions
happen one tick after the decrement that reaches zero. -/
theorem claim3_tick_behavior :
    (∀ s : StatusState, s.intervalActive = true →
      ((statusTick s).timeLeft = s.timeLeft - 1 ∧
       (statusTick s).timerEl = s.timerEl.map (fun _ => toString (s.timeLeft - 1)) ∧
       (s.timeLeft - 1 ≤ 0 →
         (statusTick s).intervalActive = false ∧ (statusTick s).isExpired = true ∧
         (statusTick s).canVerify = false ∧ (statusTick s).canResend = true) ∧
       (0 < s.timeLeft - 1 →
         (statusTick s).intervalActive = true ∧ (statusTick s).isExpired = s.isExpired ∧
         (statusTick s).canVerify = s.canVerify ∧ (statusTick s).canResend = s.canResend))) ∧
    (∀ s : TimerState, s.intervalActive = true → s.display.isSome = true →
      (s.countdown ≤ 0 →
        timerTick s =
          { s with
            intervalActive := false
            display := some ⟨expiredMsg⟩
            warnings := s.warnings + 1
            resend := s.resend.map fun _ => ⟨false, false, true, resendLabel⟩
            verify := s.verify.map fun _ => ⟨true, true⟩ }) ∧
      (0 < s.countdown →
        timerTick s =
          { s with
            display := some ⟨fmtTime s.countdown⟩
            countdown := s.countdown - 1 })) := by
  constructor
  · intro s ha
    obtain ⟨cv, cr, ie, tl, ct, vb, rb, te, a⟩ := s
    simp only at ha
    subst ha
    dsimp only
    by_cases ht : tl - 1 ≤ 0
    · rw [statusTick_exp cv cr ie tl ct vb rb te (by omega)]
      exact ⟨rfl, rfl, fun _ => ⟨rfl, rfl, rfl, rfl⟩, fun hpos => absurd hpos (by omega)⟩
    · rw [statusTick_mid cv cr ie tl ct vb rb te (by omega)]
      exact ⟨rfl, rfl, fun hle => absurd hle (by omega), fun _ => ⟨rfl, rfl, rfl, rfl⟩⟩
  · intro s ha hd
    obtain ⟨dd, re, ve, w, c, a⟩ := s
    simp only at ha
    subst ha
    cases dd with
    | none => simp at hd
    | some d =>
        constructor
        · intro hc
          rw [timerTick_active _ rfl, updateTimer_exp d re ve w c _ hc]
        · intro hc
          rw [timerTick_active _ rfl, updateTimer_pos d re ve w c _ hc]

/-- Claim C3, witness: concrete active mid-countdown states for both
variants. -/
theorem claim3_witness :
    (statusTick sampleStatusState).timeLeft = sampleStatusState.timeLeft - 1 ∧
    timerTick sampleTimerState =
      { sampleTimerState with
        display := some ⟨fmtTime sampleTimerState.countdown⟩
        countdown := sampleTimerState.countdown - 1 } :=
  ⟨(claim3_tick_behavior.1 sampleStatusState rfl).1,
   (claim3_tick_behavior.2 sampleTimerState rfl rfl).2 (by decide)⟩

/-- Claim C3, counterexample: in token_timer.js, the tick that decrements
`countdown` from 1 to 0 (result `<= 0`) does not stop the callback, does
not disable verify and does not render the expired message — it renders the
running text for 1 second; the expiry actions happen only at the next tick,
which does not decrement. And in token_status_checker.js a non-expiring
tick renders the plain seconds value (here the text `1`, containing no
colon), not a `minutes:seconds` rendering. -/
theorem claim3_counterexample :
    ((runTimer timerDomAll 2 1).countdown = 0 ∧
     (runTimer timerDomAll 2 1).intervalActive = true ∧
     (runTimer timerDomAll 2 1).verify = some ⟨false, false⟩ ∧
     (runTimer timerDomAll 2 1).display = some ⟨fmtTime 1⟩ ∧
     fmtTime 1 ≠ expiredMsg ∧
     (runTimer timerDomAll 2 2).countdown = 0) ∧
    ((runStatus ⟨true, false, false, 2⟩ statusDomAll 1).timerEl = some "1" ∧
     ("1".data.contains ':') = false) :=
  ⟨⟨rfl, rfl, rfl, rfl, by decide, rfl⟩, ⟨rfl, by decide⟩⟩

/-- Claim C5, amended: only a configured initial value whose
`parseInt(raw, 10)` result is NaN (no leading optional-sign digit sequence,
e.g. any non-numeric string) is replaced by the fixed default 180, and the
controller then behaves identically to one initialized with 180; a value
with a numeric prefix — including a negative one — is used as parsed and is
not replaced. -/
theorem claim5_default_fallback (raw : String) (h : parseIntJs raw = none)
    (dom : TimerDom) (k : Nat) :
    countdownInit raw = 180 ∧ runTimer dom (countdownInit raw) k = runTimer dom 180 k := by
  unfold countdownInit
  rw [h]
  exact ⟨rfl, rfl⟩

/-- Claim C5, witness at the non-numeric string `abc`. -/
theorem claim5_witness :
    countdownInit "abc" = 180 ∧
    runTimer timerDomAll (countdownInit "abc") 0 = runTimer timerDomAll 180 0 :=
  claim5_default_fallback "abc" (by decide) timerDomAll 0

/-- Claim C5, counterexample: the configured value `-5` is not a valid
non-negative integer, yet `parseInt` yields `-5` (not NaN), so it is not
replaced by the default: the controller starts at `-5`, shows the expired
message immediately and disables verify, while a default-initialized
controller shows the 3:00 running display and enables verify. -/
theorem claim5_counterexample :
    countdownInit "-5" = -5 ∧
    (initTokenTimer timerDomAll (countdownInit "-5")).display = some ⟨expiredMsg⟩ ∧
    (initTokenTimer timerDomAll 180).display = some ⟨fmtTime 180⟩ ∧
    expiredMsg ≠ fmtTime 180 ∧
    (initTokenTimer timerDomAll (countdownInit "-5")).verify = some ⟨true, true⟩ ∧
    (initTokenTimer timerDomAll 180).verify = some ⟨false, false⟩ :=
  ⟨by decide, rfl, rfl, by decide, rfl, rfl⟩

/-- Claim C8: along a started run with all elements present, the recurring
countdown callback is cancelled exactly once — the interval activity drops
from true to false at exactly one tick index — and at that tick the counter
has reached `<= 0` (for token_timer.js the cancelling tick is the first one
that observes `countdown <= 0`; for token_status_checker.js it is the tick
whose decrement reaches 0); no other tick cancels it. -/
theorem claim8_single_cancellation :
    (∀ (d : DisplayEl) (r : ResendEl) (v : VerifyEl) (n k : Nat),
      (((runTimer ⟨some d, some r, some v⟩ (n : Int) k).intervalActive = true ∧
        (runTimer ⟨some d, some r, some v⟩ (n : Int) (k + 1)).intervalActive = false) ↔
        k + 1 = max n 1) ∧
      (k + 1 = max n 1 → (runTimer ⟨some d, some r, some v⟩ (n : Int) k).countdown ≤ 0)) ∧
    (∀ (cv cr ie : Bool) (dom : StatusDom) (n k : Nat),
      (((runStatus ⟨cv, cr, ie, (n : Int)⟩ dom k).intervalActive = true ∧
        (runStatus ⟨cv, cr, ie, (n : Int)⟩ dom (k + 1)).intervalActive = false) ↔
        k + 1 = n) ∧
      (k + 1 = n → (runStatus ⟨cv, cr, ie, (n : Int)⟩ dom (k + 1)).timeLeft ≤ 0)) := by
  constructor
  · intro d r v n k
    constructor
    · rw [runTimer_active_eq d r v n k, runTimer_active_eq d r v n (k + 1)]
      simp only [decide_eq_true_eq, decide_eq_false_iff_not]
      omega
    · intro he
      cases n with
      | zero =>
          have hk : k = 0 := by omega
          subst hk
          rw [runTimer_zero_init d r v]
      | succ m =>
          have hk : k = m := by omega
          rw [runTimer_mid d r v (m + 1) k (by omega)]
          dsimp only
          push_cast
          omega
  · intro cv cr ie dom n k
    constructor
    · rw [runStatus_active_eq cv cr ie dom n k, runStatus_active_eq cv cr ie dom n (k + 1)]
      simp only [decide_eq_true_eq, decide_eq_false_iff_not]
      omega
    · intro he
      have := (runStatus_expired cv cr ie dom n (k + 1) (by omega) (by omega)).2.2.2.1
      rw [this]

/-- Claim C8, witness at `n = 1`, `k = 0` for token_timer.js. -/
theorem claim8_witness :
    (runTimer ⟨some sampleDisplay, some sampleResend, some sampleVerify⟩
        ((1 : Nat) : Int) 0).countdown ≤ 0 :=
  (claim8_single_cancellation.1 sampleDisplay sampleResend sampleVerify 1 0).2 rfl

/-- Claim C9: once started, the remaining time is monotonically
non-increasing across every sequence of ticks in both variants, and the
expired state is one-way: token_status_checker.js never clears `isExpired`
again, and once the token_timer.js controls are in their expired
configuration (verify disabled, resend enabled with its expired classes and
label) every later state keeps them there; only building a fresh state from
a fresh configuration escapes it. -/
theorem claim9_monotone_one_way (cfg : StatusConfig) (dom : StatusDom)
    (tdom : TimerDom) (c : Int) (j k : Nat) (h : j ≤ k) :
    ((runStatus cfg dom k).timeLeft ≤ (runStatus cfg dom j).timeLeft) ∧
    ((runStatus cfg dom j).isExpired = true → (runStatus cfg dom k).isExpired = true) ∧
    ((runTimer tdom c k).countdown ≤ (runTimer tdom c j).countdown) ∧
    ((runTimer tdom c j).verify = some ⟨true, true⟩ ∧
     (runTimer tdom c j).resend = some ⟨false, false, true, resendLabel⟩ →
     (runTimer tdom c k).verify = some ⟨true, true⟩ ∧
     (runTimer tdom c k).resend = some ⟨false, false, true, resendLabel⟩) :=
  ⟨runStatus_timeLeft_antitone cfg dom j k h,
   runStatus_expired_persist cfg dom j k h,
   runTimer_countdown_antitone tdom c j k h,
   fun hp => runTimer_expiredButtons_persist tdom c j k h hp.1 hp.2⟩

/-- Claim C9, witness at `j = 1 ≤ k = 3` with a started 2-second countdown
in both variants. -/
theorem claim9_witness :
    1 ≤ 3 ∧
    (((runStatus ⟨true, false, false, 2⟩ statusDomAll 3).timeLeft ≤
        (runStatus ⟨true, false, false, 2⟩ statusDomAll 1).timeLeft) ∧
     ((runStatus ⟨true, false, false, 2⟩ statusDomAll 1).isExpired = true →
        (runStatus ⟨true, false, false, 2⟩ statusDomAll 3).isExpired = true) ∧
     ((runTimer timerDomAll 2 3).countdown ≤ (runTimer timerDomAll 2 1).countdown) ∧
     ((runTimer timerDomAll 2 1).verify = some ⟨true, true⟩ ∧
      (runTimer timerDomAll 2 1).resend = some ⟨false, false, true, resendLabel⟩ →
      (runTimer timerDomAll 2 3).verify = some ⟨true, true⟩ ∧
      (runTimer timerDomAll 2 3).resend = some ⟨false, false, true, resendLabel⟩)) :=
  ⟨by decide,
   claim9_monotone_one_way ⟨true, false, false, 2⟩ statusDomAll timerDomAll 2 1 3 (by decide)⟩
